import Mathlib

/-!
Shallow embedding of the error-classification, error-response and
circuit-breaker logic of the bedrock-cross-partition-inferencing
repository, together with proofs of the frozen claims about it.

Source files embedded:
* src/build/vpn-lambda-package/dual_routing_error_handler.py
* src/lambda/vpn_error_handling.py
* src/lambda/dual_routing_internet_lambda.py

Python exceptions are embedded as `Except`-valued results; Python dicts
read through `.get(key, default)` are embedded as total functions with
the default built in; `time.time()` is passed explicitly as a rational
`now`; calls to external AWS services are oracle parameters of type
`Except String _` describing the outcome the service produced.
-/

namespace CrossPartition

/-- Auxiliary: does `pat` occur as a contiguous run inside `s`? -/
def containsAux (pat : List Char) : List Char → Bool
  | [] => pat.isEmpty
  | c :: rest => List.isPrefixOf pat (c :: rest) || containsAux pat rest

/-- Substring containment, the embedding of the Python `keyword in s` test. -/
def strContains (s pat : String) : Bool :=
  containsAux pat.toList s.toList

/-- Character-wise lower casing, the embedding of Python `str.lower()`
(the keyword lists are pure ASCII, where the two agree). -/
def lowerStr (s : String) : String :=
  String.mk (s.toList.map Char.toLower)

/-- `any(keyword in error_str for keyword in keywords)` -/
def anyKeyword (keywords : List String) (s : String) : Bool :=
  keywords.any (fun k => strContains s k)

/-! ## Error taxonomy (dual_routing_error_handler.py lines 19-60) -/

/-- `ErrorCategory` enum. -/
inductive ErrorCategory where
  | authentication
  | authorization
  | validation
  | network
  | service
  | rate_limiting
  | configuration
  | internal
  | vpn_specific
  | internet_specific
deriving DecidableEq, Repr

/-- `ErrorSeverity` enum. -/
inductive ErrorSeverity where
  | low
  | medium
  | high
  | critical
deriving DecidableEq, Repr

/-- `DualRoutingError`: the fields set by `__init__`.  The `details`
dict is embedded as an association list (every call site in the module
stores string values). -/
structure DualRoutingError where
  message : String
  error_code : String
  category : ErrorCategory
  severity : ErrorSeverity := ErrorSeverity.medium
  routing_method : String := "unknown"
  details : List (String × String) := []
  http_status : Nat := 500
  retryable : Bool := false
  timestamp : String := ""
deriving DecidableEq, Repr

/-! ## Keyword classifier (`ErrorHandler._convert_to_dual_routing_error`,
dual_routing_error_handler.py lines 93-194).  The keyword groups and
their order are transcribed verbatim from the source. -/

def authenticationKeywords : List String :=
  ["unauthorized", "authentication", "invalid token", "api key"]

def authorizationKeywords : List String :=
  ["forbidden", "access denied", "permission"]

def validationKeywords : List String :=
  ["invalid", "missing", "required", "validation"]

def networkKeywords : List String :=
  ["timeout", "connection", "network", "dns"]

def vpnKeywords : List String :=
  ["vpn", "tunnel", "vpc endpoint"]

def rateLimitKeywords : List String :=
  ["throttl", "rate limit", "429"]

def serviceKeywords : List String :=
  ["bedrock", "service", "aws"]

/-- `_convert_to_dual_routing_error(self, error)`.  `routing_method` is
the handler's `self.routing_method`, `errorStr` is `str(error)`, and
`ts` stands for the timestamp the constructor reads from the clock. -/
def convert_to_dual_routing_error (routing_method : String) (errorStr : String)
    (ts : String) : DualRoutingError :=
  let error_str := lowerStr errorStr
  if anyKeyword authenticationKeywords error_str then
    { message := "Authentication failed"
      error_code := "AUTHENTICATION_FAILED"
      category := ErrorCategory.authentication
      severity := ErrorSeverity.medium
      routing_method := routing_method
      http_status := 401
      details := [("original_error", errorStr)]
      timestamp := ts }
  else if anyKeyword authorizationKeywords error_str then
    { message := "Access denied"
      error_code := "ACCESS_DENIED"
      category := ErrorCategory.authorization
      severity := ErrorSeverity.medium
      routing_method := routing_method
      http_status := 403
      details := [("original_error", errorStr)]
      timestamp := ts }
  else if anyKeyword validationKeywords error_str then
    { message := "Request validation failed"
      error_code := "VALIDATION_ERROR"
      category := ErrorCategory.validation
      severity := ErrorSeverity.low
      routing_method := routing_method
      http_status := 400
      details := [("original_error", errorStr)]
      timestamp := ts }
  else if anyKeyword networkKeywords error_str then
    { message := "Network error occurred"
      error_code := "NETWORK_ERROR"
      category := ErrorCategory.network
      severity := ErrorSeverity.high
      routing_method := routing_method
      http_status := 502
      retryable := true
      details := [("original_error", errorStr)]
      timestamp := ts }
  else if anyKeyword vpnKeywords error_str then
    { message := "VPN connectivity error"
      error_code := "VPN_ERROR"
      category := ErrorCategory.vpn_specific
      severity := ErrorSeverity.high
      routing_method := routing_method
      http_status := 503
      retryable := true
      details := [("original_error", errorStr)]
      timestamp := ts }
  else if anyKeyword rateLimitKeywords error_str then
    { message := "Request rate limit exceeded"
      error_code := "RATE_LIMIT_EXCEEDED"
      category := ErrorCategory.rate_limiting
      severity := ErrorSeverity.medium
      routing_method := routing_method
      http_status := 429
      retryable := true
      details := [("original_error", errorStr)]
      timestamp := ts }
  else if anyKeyword serviceKeywords error_str then
    { message := "External service error"
      error_code := "SERVICE_ERROR"
      category := ErrorCategory.service
      severity := ErrorSeverity.high
      routing_method := routing_method
      http_status := 502
      retryable := true
      details := [("original_error", errorStr)]
      timestamp := ts }
  else
    { message := "Internal server error"
      error_code := "INTERNAL_ERROR"
      category := ErrorCategory.internal
      severity := ErrorSeverity.high
      routing_method := routing_method
      http_status := 500
      details := [("original_error", errorStr)]
      timestamp := ts }

/-! ## Retry hint tables (dual_routing_error_handler.py lines 414-432) -/

/-- `ErrorHandler._get_retry_delay`: `delay_map.get(error.category, 5)`. -/
def get_retry_delay (category : ErrorCategory) : Nat :=
  match category with
  | ErrorCategory.rate_limiting => 60
  | ErrorCategory.network => 5
  | ErrorCategory.vpn_specific => 10
  | ErrorCategory.service => 30
  | _ => 5

/-- `ErrorHandler._get_max_retries`: `retry_map.get(error.category, 2)`. -/
def get_max_retries (category : ErrorCategory) : Nat :=
  match category with
  | ErrorCategory.rate_limiting => 3
  | ErrorCategory.network => 3
  | ErrorCategory.vpn_specific => 2
  | ErrorCategory.service => 3
  | _ => 2

/-! ## Predefined error subclasses
(dual_routing_error_handler.py lines 435-521).  Each subclass
`__init__` is a constructor call on `DualRoutingError` with fixed
code/category/severity/status/retryable; message, routing_method and
details are caller-supplied (defaults at the call sites that use them). -/

def AuthenticationError (message routing_method : String)
    (details : List (String × String)) (ts : String) : DualRoutingError :=
  { message := message
    error_code := "AUTHENTICATION_FAILED"
    category := ErrorCategory.authentication
    severity := ErrorSeverity.medium
    routing_method := routing_method
    http_status := 401
    details := details
    timestamp := ts }

def AuthorizationError (message routing_method : String)
    (details : List (String × String)) (ts : String) : DualRoutingError :=
  { message := message
    error_code := "ACCESS_DENIED"
    category := ErrorCategory.authorization
    severity := ErrorSeverity.medium
    routing_method := routing_method
    http_status := 403
    details := details
    timestamp := ts }

def ValidationError (message routing_method : String)
    (details : List (String × String)) (ts : String) : DualRoutingError :=
  { message := message
    error_code := "VALIDATION_ERROR"
    category := ErrorCategory.validation
    severity := ErrorSeverity.low
    routing_method := routing_method
    http_status := 400
    details := details
    timestamp := ts }

def VPNError (message routing_method : String)
    (details : List (String × String)) (ts : String) : DualRoutingError :=
  { message := message
    error_code := "VPN_ERROR"
    category := ErrorCategory.vpn_specific
    severity := ErrorSeverity.high
    routing_method := routing_method
    http_status := 503
    retryable := true
    details := details
    timestamp := ts }

def NetworkError (message routing_method : String)
    (details : List (String × String)) (ts : String) : DualRoutingError :=
  { message := message
    error_code := "NETWORK_ERROR"
    category := ErrorCategory.network
    severity := ErrorSeverity.high
    routing_method := routing_method
    http_status := 502
    retryable := true
    details := details
    timestamp := ts }

def RateLimitError (message routing_method : String)
    (details : List (String × String)) (ts : String) : DualRoutingError :=
  { message := message
    error_code := "RATE_LIMIT_EXCEEDED"
    category := ErrorCategory.rate_limiting
    severity := ErrorSeverity.medium
    routing_method := routing_method
    http_status := 429
    retryable := true
    details := details
    timestamp := ts }

def ServiceError (message routing_method : String)
    (details : List (String × String)) (ts : String) : DualRoutingError :=
  { message := message
    error_code := "SERVICE_ERROR"
    category := ErrorCategory.service
    severity := ErrorSeverity.high
    routing_method := routing_method
    http_status := 502
    retryable := true
    details := details
    timestamp := ts }

/-! ## Circuit breaker (vpn_error_handling.py lines 94-132)

The three Python dicts are embedded as total functions whose value at a
key not yet written is the `.get` default used by every read site
(`0` for `failure_count` and `last_failure_time`, `"closed"` for
`circuit_state`).  `time.time()` is an explicit rational argument. -/

/-- Pointwise update of a string-keyed map, `d[key] = v`. -/
def updMap {α : Type} (f : String → α) (key : String) (v : α) : String → α :=
  fun t => if t = key then v else f t

structure CircuitBreaker where
  failure_threshold : Nat
  recovery_timeout : ℚ
  failure_count : String → Nat
  last_failure_time : String → ℚ
  circuit_state : String → String

/-- `CircuitBreaker.__init__(failure_threshold=5, recovery_timeout=60)`
with empty dicts. -/
def CircuitBreaker.init (failure_threshold : Nat := 5)
    (recovery_timeout : ℚ := 60) : CircuitBreaker :=
  { failure_threshold := failure_threshold
    recovery_timeout := recovery_timeout
    failure_count := fun _ => 0
    last_failure_time := fun _ => 0
    circuit_state := fun _ => "closed" }

/-- `CircuitBreaker.is_open(service_name)`: returns the boolean result
together with the (possibly updated) breaker state. -/
def CircuitBreaker.is_open (cb : CircuitBreaker) (service_name : String)
    (now : ℚ) : Bool × CircuitBreaker :=
  let state := cb.circuit_state service_name
  if state = "open" then
    let last_failure := cb.last_failure_time service_name
    if now - last_failure > cb.recovery_timeout then
      (false, { cb with circuit_state := updMap cb.circuit_state service_name "half-open" })
    else
      (true, cb)
  else
    (false, cb)

/-- `CircuitBreaker.record_success(service_name)`. -/
def CircuitBreaker.record_success (cb : CircuitBreaker)
    (service_name : String) : CircuitBreaker :=
  { cb with
    failure_count := updMap cb.failure_count service_name 0
    circuit_state := updMap cb.circuit_state service_name "closed" }

/-- `CircuitBreaker.record_failure(service_name)`. -/
def CircuitBreaker.record_failure (cb : CircuitBreaker)
    (service_name : String) (now : ℚ) : CircuitBreaker :=
  let newCount := cb.failure_count service_name + 1
  let cb1 := { cb with
    failure_count := updMap cb.failure_count service_name newCount
    last_failure_time := updMap cb.last_failure_time service_name now }
  if newCount ≥ cb.failure_threshold then
    { cb1 with circuit_state := updMap cb1.circuit_state service_name "open" }
  else
    cb1

/-- States reachable from a freshly constructed breaker by any
interleaving of the three public operations. -/
inductive CircuitBreaker.Reachable : CircuitBreaker → Prop where
  | init (ft : Nat) (rt : ℚ) : CircuitBreaker.Reachable (CircuitBreaker.init ft rt)
  | is_open (cb : CircuitBreaker) (s : String) (now : ℚ) :
      CircuitBreaker.Reachable cb → CircuitBreaker.Reachable (cb.is_open s now).2
  | success (cb : CircuitBreaker) (s : String) :
      CircuitBreaker.Reachable cb → CircuitBreaker.Reachable (cb.record_success s)
  | failure (cb : CircuitBreaker) (s : String) (now : ℚ) :
      CircuitBreaker.Reachable cb → CircuitBreaker.Reachable (cb.record_failure s now)

/-! ## VPC-endpoint failure handler
(`VPNErrorHandler.handle_vpc_endpoint_failure`, vpn_error_handling.py
lines 192-227, and `_calculate_retry_delay`, lines 377-382). -/

/-- `VPNErrorHandler._calculate_retry_delay(attempt)`:
`min(base_delay * (2 ** attempt), max_delay)` with `base_delay = 0.1`
and `max_delay = 30.0`. -/
def calculate_retry_delay (attempt : Nat) : ℚ :=
  min ((1 / 10 : ℚ) * 2 ^ attempt) 30

/-- Outcome of `handle_vpc_endpoint_failure`: the returned action dict,
or the typed exception it raises. -/
inductive VpcFailureOutcome where
  | retryAction (retry_delay : ℚ) (retry_attempt : Nat)
  | circuitBreakerError
  | vpcEndpointError
deriving DecidableEq, Repr

/-- `handle_vpc_endpoint_failure(service_name, endpoint_id, error, context)`
acting on the module-level `circuit_breaker`.  The final
`except Exception` re-wraps the max-retries `VPCEndpointError` into
another `VPCEndpointError`, so that branch is still `vpcEndpointError`. -/
def handle_vpc_endpoint_failure (cb : CircuitBreaker) (service_name : String)
    (retry_attempt max_retries : Nat) (now : ℚ) :
    VpcFailureOutcome × CircuitBreaker :=
  let checked := cb.is_open service_name now
  if checked.1 then
    (VpcFailureOutcome.circuitBreakerError, checked.2)
  else
    let cb2 := checked.2.record_failure service_name now
    if retry_attempt < max_retries then
      (VpcFailureOutcome.retryAction (calculate_retry_delay retry_attempt)
        (retry_attempt + 1), cb2)
    else
      (VpcFailureOutcome.vpcEndpointError, cb2)

/-! ## JSON values and API Gateway responses

The Python code builds nested dicts and serializes them with
`json.dumps`; the embedding keeps the tree structure (insertion-ordered
association lists) instead of the serialized string. -/

inductive Json where
  | str (s : String)
  | num (n : Int)
  | bool (b : Bool)
  | obj (fields : List (String × Json))
  | arr (items : List Json)
  | null

/-- First-match association-list lookup (Python dict read). -/
def alookup {α : Type} : List (String × α) → String → Option α
  | [], _ => none
  | (k, v) :: rest, key => if k = key then some v else alookup rest key

def Json.getField : Json → String → Option Json
  | Json.obj fields, key => alookup fields key
  | _, _ => none

def Json.getBool : Json → Option Bool
  | Json.bool b => some b
  | _ => none

def Json.getStr : Json → Option String
  | Json.str s => some s
  | _ => none

/-- `.value` of the `ErrorCategory` enum members. -/
def ErrorCategory.value : ErrorCategory → String
  | ErrorCategory.authentication => "authentication"
  | ErrorCategory.authorization => "authorization"
  | ErrorCategory.validation => "validation"
  | ErrorCategory.network => "network"
  | ErrorCategory.service => "service"
  | ErrorCategory.rate_limiting => "rate_limiting"
  | ErrorCategory.configuration => "configuration"
  | ErrorCategory.internal => "internal"
  | ErrorCategory.vpn_specific => "vpn_specific"
  | ErrorCategory.internet_specific => "internet_specific"

/-- `str(b).lower()` for a Python bool. -/
def boolLower (b : Bool) : String :=
  if b then "true" else "false"

/-- API Gateway proxy response `{statusCode, headers, body}`. -/
structure ApiResponse where
  statusCode : Nat
  headers : List (String × String)
  body : Json

/-- `ErrorHandler._get_troubleshooting_info`
(dual_routing_error_handler.py lines 324-412):
`troubleshooting_guides.get(error.category, default)`. -/
def get_troubleshooting_info (category : ErrorCategory) : Json :=
  match category with
  | ErrorCategory.authentication => Json.obj
      [("description", Json.str "Authentication failed - check your API key or credentials"),
       ("common_causes", Json.arr
         [Json.str "Invalid or expired API key",
          Json.str "Missing X-API-Key header",
          Json.str "Incorrect authentication method"]),
       ("solutions", Json.arr
         [Json.str "Verify your API key is correct and active",
          Json.str "Check that you\x27re using the correct authentication header",
          Json.str "Ensure your API key has the right permissions"])]
  | ErrorCategory.authorization => Json.obj
      [("description", Json.str "Access denied - insufficient permissions"),
       ("common_causes", Json.arr
         [Json.str "API key lacks permission for this routing method",
          Json.str "Cross-routing attempt (internet key on VPN endpoint)",
          Json.str "Usage plan restrictions"]),
       ("solutions", Json.arr
         [Json.str "Use the correct API key for your routing method",
          Json.str "Check your usage plan permissions",
          Json.str "Contact administrator for access"])]
  | ErrorCategory.vpn_specific => Json.obj
      [("description", Json.str "VPN connectivity issue"),
       ("common_causes", Json.arr
         [Json.str "VPN tunnel is down",
          Json.str "VPC endpoint unavailable",
          Json.str "Network routing issues"]),
       ("solutions", Json.arr
         [Json.str "Check VPN tunnel status",
          Json.str "Verify VPC endpoint health",
          Json.str "Try internet routing as fallback",
          Json.str "Contact network administrator"])]
  | ErrorCategory.network => Json.obj
      [("description", Json.str "Network connectivity problem"),
       ("common_causes", Json.arr
         [Json.str "DNS resolution failure",
          Json.str "Connection timeout",
          Json.str "Network congestion"]),
       ("solutions", Json.arr
         [Json.str "Retry the request",
          Json.str "Check network connectivity",
          Json.str "Verify DNS settings"])]
  | ErrorCategory.rate_limiting => Json.obj
      [("description", Json.str "Request rate limit exceeded"),
       ("common_causes", Json.arr
         [Json.str "Too many requests in short time",
          Json.str "Usage plan limits reached",
          Json.str "Burst limit exceeded"]),
       ("solutions", Json.arr
         [Json.str "Implement exponential backoff",
          Json.str "Reduce request frequency",
          Json.str "Consider upgrading usage plan"])]
  | ErrorCategory.service => Json.obj
      [("description", Json.str "External service error"),
       ("common_causes", Json.arr
         [Json.str "Bedrock service unavailable",
          Json.str "Model not available",
          Json.str "Service maintenance"]),
       ("solutions", Json.arr
         [Json.str "Retry with exponential backoff",
          Json.str "Try different model if applicable",
          Json.str "Check AWS service status"])]
  | _ => Json.obj
      [("description", Json.str "An error occurred"),
       ("solutions", Json.arr
         [Json.str "Retry the request",
          Json.str "Contact support if problem persists"])]

/-- The only key of the handler `context` dict that influences the
response (`context.get('include_details', False)`). -/
structure HandlerContext where
  include_details : Bool := false

def detailsJson (details : List (String × String)) : Json :=
  Json.obj (details.map (fun p => (p.1, Json.str p.2)))

/-- `ErrorHandler._generate_api_response(error, request_id, context)`
(dual_routing_error_handler.py lines 278-322). -/
def generate_api_response (error : DualRoutingError) (request_id : String)
    (context : HandlerContext) : ApiResponse :=
  let baseFields : List (String × Json) :=
    [("code", Json.str error.error_code),
     ("message", Json.str error.message),
     ("category", Json.str error.category.value),
     ("routing_method", Json.str error.routing_method),
     ("request_id", Json.str request_id),
     ("timestamp", Json.str error.timestamp),
     ("retryable", Json.bool error.retryable)]
  let withDetails := baseFields ++
    (if error.severity == ErrorSeverity.high || error.severity == ErrorSeverity.critical
        || context.include_details then
      [("details", detailsJson error.details)]
    else [])
  let withTrouble := withDetails ++
    [("troubleshooting", get_troubleshooting_info error.category)]
  let withRetry := withTrouble ++
    (if error.retryable then
      [("retry", Json.obj
        [("recommended_delay_seconds", Json.num (get_retry_delay error.category)),
         ("max_retries", Json.num (get_max_retries error.category))])]
    else [])
  { statusCode := error.http_status
    headers :=
      [("Content-Type", "application/json"),
       ("X-Request-ID", request_id),
       ("X-Error-Code", error.error_code),
       ("X-Error-Category", error.category.value),
       ("X-Routing-Method", error.routing_method),
       ("X-Error-Retryable", boolLower error.retryable)]
    body := Json.obj [("error", Json.obj withRetry)] }

/-- The argument of `ErrorHandler.handle_error`: either already a
`DualRoutingError` or a generic exception carrying `str(error)`. -/
inductive ErrInput where
  | dual (e : DualRoutingError)
  | generic (s : String)

/-- `ErrorHandler._send_error_metrics` (lines 226-276): the whole body
is inside `try: ... except Exception: logger.error(...)`, so whatever
the CloudWatch call did, the method returns normally. -/
def sendErrorMetrics (cloudwatch : Except String Unit) : Except String Unit :=
  match cloudwatch with
  | Except.ok _ => Except.ok ()
  | Except.error _ => Except.ok ()

/-- `ErrorHandler.handle_error(error, request_id, context)`
(dual_routing_error_handler.py lines 69-91).  `ts` stands for the clock
reading used when a generic exception is converted; `cloudwatch` is the
outcome of the `put_metric_data` call.  A raised exception would appear
as `Except.error`. -/
def handle_error (routing_method : String) (error : ErrInput) (request_id : String)
    (context : HandlerContext) (ts : String) (cloudwatch : Except String Unit) :
    Except String ApiResponse :=
  let dual_error := match error with
    | ErrInput.dual e => e
    | ErrInput.generic s => convert_to_dual_routing_error routing_method s ts
  -- `_log_error` only writes to the logger
  match sendErrorMetrics cloudwatch with
  | Except.error e => Except.error e
  | Except.ok _ => Except.ok (generate_api_response dual_error request_id context)

/-! ## Internet routing Lambda (dual_routing_internet_lambda.py)

The handler's calls into AWS (Secrets Manager, Bedrock over HTTP,
DynamoDB, CloudWatch) and its JSON body parsing are oracle parameters:
each is the `Except` outcome the corresponding call produced on this
invocation. -/

/-- `detect_routing_method(path)` (lines 151-157). -/
def detect_routing_method (path : String) : String :=
  if strContains path "/vpn/" then "vpn" else "internet"

/-- The fields of the API Gateway event the embedded control flow reads
(`event.get('path', '')`, `event.get('httpMethod', 'POST')`; a missing
key is the default value here). -/
structure Event where
  path : String
  httpMethod : String

/-- The result dict of `parse_request` (only its presence matters to
the embedded control flow). -/
structure RequestData where
  modelId : String
  body : String

/-- Outcomes of the external calls made during one invocation. -/
structure LambdaWorld where
  /-- `validate_request(event, ['modelId'], ...)`: the `ValidationError`
  message if it raised, abstracting lines 533-558. -/
  validateOutcome : Except String Unit
  /-- `parse_request(event)`: raises `ValueError` (a generic exception). -/
  parseOutcome : Except String RequestData
  /-- `get_bedrock_bearer_token()`. -/
  tokenOutcome : Except String String
  /-- `make_bedrock_request(...)`: the parsed response JSON on success,
  `str(bedrock_error)` on failure. -/
  bedrockOutcome : Except String Json
  /-- the DynamoDB `put_item` inside `log_request`. -/
  dynamoOutcome : Except String Unit
  /-- the CloudWatch `put_metric_data` inside `send_custom_metrics`. -/
  metricsOutcome : Except String Unit
  /-- the CloudWatch call inside the error handler's `_send_error_metrics`. -/
  errorMetricsOutcome : Except String Unit
  /-- result of the GET branches (`get_available_models` /
  `get_routing_info`), which catch internally and always return. -/
  getResponse : ApiResponse

/-- `log_request` (lines 442-488): body wrapped in
`try: ... except Exception: logger.error(...)` — "logging failure
shouldn't break the main flow". -/
def log_request (dynamo : Except String Unit) : Unit :=
  match dynamo with
  | Except.ok _ => ()
  | Except.error _ => ()

/-- `send_custom_metrics` (lines 490-536): same swallow-all shape. -/
def send_custom_metrics (cloudwatch : Except String Unit) : Unit :=
  match cloudwatch with
  | Except.ok _ => ()
  | Except.error _ => ()

/-- `{**response, 'routing_method': ROUTING_METHOD}` of line 124,
embedded as remove-then-append on the field list. -/
def mergeRoutingMethod (response : Json) : Json :=
  match response with
  | Json.obj fields =>
      Json.obj ((fields.filter (fun p => p.1 ≠ "routing_method")) ++
        [("routing_method", Json.str "internet")])
  | j => j

/-- `lambda_handler(event, context)` (lines 32-149).  `request_id` is
the generated uuid, `ts` the clock reading used for error timestamps.
The try-body is `inner`; the top-level `except` delegates to
`handle_error` (its best-effort re-logging is `log_request` /
`send_custom_metrics`, both total). -/
def lambda_handler (event : Event) (w : LambdaWorld) (request_id ts : String) :
    Except String ApiResponse :=
  let inner : Except ErrInput ApiResponse :=
    if detect_routing_method event.path = "vpn" then
      Except.error (ErrInput.dual (ValidationError
        "This Lambda function only handles internet routing requests" "internet"
        [("expected_path", "/v1/bedrock/invoke-model"),
         ("received_path", event.path),
         ("detected_routing", detect_routing_method event.path)] ts))
    else if event.httpMethod = "GET" then
      Except.ok w.getResponse
    else
      match w.validateOutcome with
      | Except.error msg =>
          Except.error (ErrInput.dual (ValidationError msg "internet" [] ts))
      | Except.ok _ =>
        match w.parseOutcome with
        | Except.error msg => Except.error (ErrInput.generic msg)
        | Except.ok _ =>
          match w.tokenOutcome with
          | Except.error msg =>
              Except.error (ErrInput.dual (AuthenticationError
                "Failed to retrieve Bedrock bearer token" "internet"
                [("token_error", msg)] ts))
          | Except.ok _ =>
            match w.bedrockOutcome with
            | Except.error msg =>
                if anyKeyword ["timeout", "connection", "network"] (lowerStr msg) then
                  Except.error (ErrInput.dual (NetworkError
                    "Network error occurred while connecting to commercial Bedrock"
                    "internet" [("bedrock_error", msg)] ts))
                else
                  Except.error (ErrInput.dual (ServiceError
                    "Failed to forward request to commercial Bedrock"
                    "internet" [("bedrock_error", msg)] ts))
            | Except.ok response =>
                let _ := log_request w.dynamoOutcome
                let _ := send_custom_metrics w.metricsOutcome
                Except.ok
                  { statusCode := 200
                    headers :=
                      [("Content-Type", "application/json"),
                       ("X-Request-ID", request_id),
                       ("X-Source-Partition", "govcloud"),
                       ("X-Destination-Partition", "commercial"),
                       ("X-Routing-Method", "internet")]
                    body := mergeRoutingMethod response }
  match inner with
  | Except.ok r => Except.ok r
  | Except.error e =>
      let _ := log_request w.dynamoOutcome
      let _ := send_custom_metrics w.metricsOutcome
      handle_error "internet" e request_id { include_details := false } ts
        w.errorMetricsOutcome

/-! ## Observation helpers used by the claim statements -/

/-- The (http_status, retryable) table of spec §4.2, keyed by category.
The two categories outside the table (configuration,
internet_specific) are never produced at the construction sites the
claims range over; they are given the `DualRoutingError` defaults. -/
def statusRetryableTable : ErrorCategory → Nat × Bool
  | ErrorCategory.authentication => (401, false)
  | ErrorCategory.authorization => (403, false)
  | ErrorCategory.validation => (400, false)
  | ErrorCategory.network => (502, true)
  | ErrorCategory.vpn_specific => (503, true)
  | ErrorCategory.rate_limiting => (429, true)
  | ErrorCategory.service => (502, true)
  | ErrorCategory.internal => (500, false)
  | _ => (500, false)

/-- Status code of a handler run that returned normally. -/
def exceptStatus : Except String ApiResponse → Option Nat
  | Except.ok r => some r.statusCode
  | Except.error _ => none

/-- `body.error.code` of a handler run that returned normally. -/
def exceptBodyErrorCode : Except String ApiResponse → Option String
  | Except.ok r =>
      (r.body.getField "error").bind (fun j => (j.getField "code").bind Json.getStr)
  | Except.error _ => none

/-- Did the handler run return normally (no exception propagated)? -/
def exceptIsOk : Except String ApiResponse → Bool
  | Except.ok _ => true
  | Except.error _ => false

/-! ## Claim theorems -/

/-- C4: `_get_retry_delay` returns 60 for RATE_LIMITING, 5 for NETWORK,
10 for VPN_SPECIFIC, 30 for SERVICE and 5 for every other category;
`_get_max_retries` returns 3, 3, 2, 3 respectively and 2 for every
other category. -/
theorem retry_tables_match_spec :
    get_retry_delay ErrorCategory.rate_limiting = 60 ∧
    get_retry_delay ErrorCategory.network = 5 ∧
    get_retry_delay ErrorCategory.vpn_specific = 10 ∧
    get_retry_delay ErrorCategory.service = 30 ∧
    get_max_retries ErrorCategory.rate_limiting = 3 ∧
    get_max_retries ErrorCategory.network = 3 ∧
    get_max_retries ErrorCategory.vpn_specific = 2 ∧
    get_max_retries ErrorCategory.service = 3 ∧
    (∀ c : ErrorCategory, c ≠ ErrorCategory.rate_limiting →
      c ≠ ErrorCategory.network → c ≠ ErrorCategory.vpn_specific →
      c ≠ ErrorCategory.service →
      get_retry_delay c = 5 ∧ get_max_retries c = 2) := by
  refine ⟨rfl, rfl, rfl, rfl, rfl, rfl, rfl, rfl, ?_⟩
  intro c h1 h2 h3 h4
  cases c <;> simp_all [get_retry_delay, get_max_retries]

/-- Witness for C4: the default row at a concrete unlisted category. -/
theorem retry_tables_match_spec_witness :
    get_retry_delay ErrorCategory.configuration = 5 ∧
    get_max_retries ErrorCategory.configuration = 2 :=
  retry_tables_match_spec.2.2.2.2.2.2.2.2 ErrorCategory.configuration
    (by decide) (by decide) (by decide) (by decide)

/-- C3: at every `DualRoutingError` construction site in the
error-handler module — the keyword classifier and the seven predefined
subclasses — the pair (http_status, retryable) is determined by the
category and agrees with the §4.2 table. -/
theorem status_retryable_determined_by_category :
    (∀ rm s ts, ((convert_to_dual_routing_error rm s ts).http_status,
        (convert_to_dual_routing_error rm s ts).retryable) =
      statusRetryableTable (convert_to_dual_routing_error rm s ts).category) ∧
    (∀ m r d ts, ((AuthenticationError m r d ts).http_status,
        (AuthenticationError m r d ts).retryable) =
      statusRetryableTable (AuthenticationError m r d ts).category) ∧
    (∀ m r d ts, ((AuthorizationError m r d ts).http_status,
        (AuthorizationError m r d ts).retryable) =
      statusRetryableTable (AuthorizationError m r d ts).category) ∧
    (∀ m r d ts, ((ValidationError m r d ts).http_status,
        (ValidationError m r d ts).retryable) =
      statusRetryableTable (ValidationError m r d ts).category) ∧
    (∀ m r d ts, ((VPNError m r d ts).http_status,
        (VPNError m r d ts).retryable) =
      statusRetryableTable (VPNError m r d ts).category) ∧
    (∀ m r d ts, ((NetworkError m r d ts).http_status,
        (NetworkError m r d ts).retryable) =
      statusRetryableTable (NetworkError m r d ts).category) ∧
    (∀ m r d ts, ((RateLimitError m r d ts).http_status,
        (RateLimitError m r d ts).retryable) =
      statusRetryableTable (RateLimitError m r d ts).category) ∧
    (∀ m r d ts, ((ServiceError m r d ts).http_status,
        (ServiceError m r d ts).retryable) =
      statusRetryableTable (ServiceError m r d ts).category) := by
  refine ⟨?_, fun m r d ts => rfl, fun m r d ts => rfl, fun m r d ts => rfl,
    fun m r d ts => rfl, fun m r d ts => rfl, fun m r d ts => rfl,
    fun m r d ts => rfl⟩
  intro rm s ts
  unfold convert_to_dual_routing_error
  dsimp only
  repeat' split
  all_goals rfl

/-- C1 (as stated) is false: "invalid timeout" contains "timeout" and
none of "vpn"/"tunnel"/"bedrock", yet the validation keyword group is
checked before the network group, so it classifies as VALIDATION with
http_status 400 and retryable = false, not NETWORK/502/true. -/
theorem timeout_claim_counterexample :
    strContains (lowerStr "invalid timeout") "timeout" = true ∧
    strContains (lowerStr "invalid timeout") "vpn" = false ∧
    strContains (lowerStr "invalid timeout") "tunnel" = false ∧
    strContains (lowerStr "invalid timeout") "bedrock" = false ∧
    (convert_to_dual_routing_error "internet" "invalid timeout" "ts").category =
      ErrorCategory.validation ∧
    (convert_to_dual_routing_error "internet" "invalid timeout" "ts").http_status = 400 ∧
    (convert_to_dual_routing_error "internet" "invalid timeout" "ts").retryable = false := by
  refine ⟨rfl, rfl, rfl, rfl, rfl, rfl, rfl⟩

/-- C1 (amended): for every exception whose lowercased string form
contains "timeout", does not contain "vpn", "tunnel" or "bedrock", and
matches none of the keyword groups checked before the network group
(authentication, authorization, validation), classification yields
category NETWORK, http_status 502 and retryable = true. -/
theorem timeout_classifies_network (rm s ts : String)
    (htimeout : strContains (lowerStr s) "timeout" = true)
    (hvpn : strContains (lowerStr s) "vpn" = false)
    (htunnel : strContains (lowerStr s) "tunnel" = false)
    (hbedrock : strContains (lowerStr s) "bedrock" = false)
    (hauth : anyKeyword authenticationKeywords (lowerStr s) = false)
    (hauthz : anyKeyword authorizationKeywords (lowerStr s) = false)
    (hvalid : anyKeyword validationKeywords (lowerStr s) = false) :
    (convert_to_dual_routing_error rm s ts).category = ErrorCategory.network ∧
    (convert_to_dual_routing_error rm s ts).http_status = 502 ∧
    (convert_to_dual_routing_error rm s ts).retryable = true := by
  have hnet : anyKeyword networkKeywords (lowerStr s) = true := by
    simp [anyKeyword, networkKeywords, htimeout]
  simp [convert_to_dual_routing_error, hauth, hauthz, hvalid, hnet]

/-- Witness for C1 (amended) at "connection timeout". -/
theorem timeout_classifies_network_witness :
    (convert_to_dual_routing_error "internet" "connection timeout" "ts").category =
      ErrorCategory.network ∧
    (convert_to_dual_routing_error "internet" "connection timeout" "ts").http_status = 502 ∧
    (convert_to_dual_routing_error "internet" "connection timeout" "ts").retryable = true :=
  timeout_classifies_network "internet" "connection timeout" "ts"
    (by decide) (by decide) (by decide) (by decide) (by decide) (by decide) (by decide)

/-- C5: for every `DualRoutingError` e, request id r and context c,
`handle_error(e, r, c)` returns a response whose statusCode is
`e.http_status`, whose `X-Error-Code` header is `e.error_code`, whose
headers contain Content-Type, X-Request-ID (= r), X-Error-Category,
X-Routing-Method and X-Error-Retryable, and whose body's
`error.retryable` equals `e.retryable`. -/
theorem handle_error_response_shape (e : DualRoutingError) (rm r ts : String)
    (ctx : HandlerContext) (cw : Except String Unit) :
    handle_error rm (ErrInput.dual e) r ctx ts cw =
      Except.ok (generate_api_response e r ctx) ∧
    (generate_api_response e r ctx).statusCode = e.http_status ∧
    alookup (generate_api_response e r ctx).headers "X-Error-Code" =
      some e.error_code ∧
    alookup (generate_api_response e r ctx).headers "Content-Type" =
      some "application/json" ∧
    alookup (generate_api_response e r ctx).headers "X-Request-ID" = some r ∧
    alookup (generate_api_response e r ctx).headers "X-Error-Category" =
      some e.category.value ∧
    alookup (generate_api_response e r ctx).headers "X-Routing-Method" =
      some e.routing_method ∧
    alookup (generate_api_response e r ctx).headers "X-Error-Retryable" =
      some (boolLower e.retryable) ∧
    ((generate_api_response e r ctx).body.getField "error").bind
      (fun j => (j.getField "retryable").bind Json.getBool) = some e.retryable := by
  refine ⟨?_, rfl, rfl, rfl, rfl, rfl, rfl, rfl, rfl⟩
  cases cw <;> rfl

/-- C6: whenever the internet Lambda handler receives an event whose
path contains "/vpn/", it returns (normally) a response with statusCode
400 whose body's `error.code` is "VALIDATION_ERROR": the raised
`ValidationError` is a `DualRoutingError` and passes through the error
handler unchanged. -/
theorem internet_lambda_rejects_vpn_path (event : Event) (w : LambdaWorld)
    (r ts : String) (hpath : strContains event.path "/vpn/" = true) :
    exceptStatus (lambda_handler event w r ts) = some 400 ∧
    exceptBodyErrorCode (lambda_handler event w r ts) = some "VALIDATION_ERROR" := by
  have hdet : detect_routing_method event.path = "vpn" := by
    simp [detect_routing_method, hpath]
  unfold lambda_handler
  dsimp only
  rw [if_pos hdet]
  cases w.errorMetricsOutcome <;> exact ⟨rfl, rfl⟩

/-- Witness for C6 at a concrete VPN-path event. -/
theorem internet_lambda_rejects_vpn_path_witness :
    exceptStatus (lambda_handler
      { path := "/v1/vpn/bedrock/invoke-model", httpMethod := "POST" }
      { validateOutcome := Except.ok ()
        parseOutcome := Except.ok { modelId := "m", body := "" }
        tokenOutcome := Except.ok "token"
        bedrockOutcome := Except.ok Json.null
        dynamoOutcome := Except.ok ()
        metricsOutcome := Except.ok ()
        errorMetricsOutcome := Except.ok ()
        getResponse := { statusCode := 200, headers := [], body := Json.null } }
      "req-1" "ts") = some 400 ∧
    exceptBodyErrorCode (lambda_handler
      { path := "/v1/vpn/bedrock/invoke-model", httpMethod := "POST" }
      { validateOutcome := Except.ok ()
        parseOutcome := Except.ok { modelId := "m", body := "" }
        tokenOutcome := Except.ok "token"
        bedrockOutcome := Except.ok Json.null
        dynamoOutcome := Except.ok ()
        metricsOutcome := Except.ok ()
        errorMetricsOutcome := Except.ok ()
        getResponse := { statusCode := 200, headers := [], body := Json.null } }
      "req-1" "ts") = some "VALIDATION_ERROR" :=
  internet_lambda_rejects_vpn_path _ _ "req-1" "ts" (by decide)

/-- C9: every error produced by the keyword classifier whose category is
NETWORK, VPN_SPECIFIC, SERVICE or INTERNAL has severity HIGH and stores
the original exception string under `details["original_error"]`; since
`_generate_api_response` includes `details` whenever severity is HIGH or
CRITICAL, the response body exposes the original exception text for
these categories regardless of `context.include_details`. -/
theorem classifier_high_severity_exposes_details (rm s ts r : String)
    (ctx : HandlerContext)
    (hcat : (convert_to_dual_routing_error rm s ts).category = ErrorCategory.network ∨
      (convert_to_dual_routing_error rm s ts).category = ErrorCategory.vpn_specific ∨
      (convert_to_dual_routing_error rm s ts).category = ErrorCategory.service ∨
      (convert_to_dual_routing_error rm s ts).category = ErrorCategory.internal) :
    (convert_to_dual_routing_error rm s ts).severity = ErrorSeverity.high ∧
    alookup (convert_to_dual_routing_error rm s ts).details "original_error" =
      some s ∧
    ((generate_api_response (convert_to_dual_routing_error rm s ts) r ctx).body.getField
      "error").bind (fun j => (j.getField "details").bind
        (fun d => (d.getField "original_error").bind Json.getStr)) = some s := by
  by_cases h1 : anyKeyword authenticationKeywords (lowerStr s) = true
  · simp [convert_to_dual_routing_error, h1] at hcat
  by_cases h2 : anyKeyword authorizationKeywords (lowerStr s) = true
  · simp [convert_to_dual_routing_error, h1, h2] at hcat
  by_cases h3 : anyKeyword validationKeywords (lowerStr s) = true
  · simp [convert_to_dual_routing_error, h1, h2, h3] at hcat
  by_cases h4 : anyKeyword networkKeywords (lowerStr s) = true
  · simp only [convert_to_dual_routing_error, h1, h2, h3, h4, Bool.false_eq_true,
      if_false, if_true]
    refine ⟨?_, ?_, ?_⟩ <;> trivial
  by_cases h5 : anyKeyword vpnKeywords (lowerStr s) = true
  · simp only [convert_to_dual_routing_error, h1, h2, h3, h4, h5, Bool.false_eq_true,
      if_false, if_true]
    refine ⟨?_, ?_, ?_⟩ <;> trivial
  by_cases h6 : anyKeyword rateLimitKeywords (lowerStr s) = true
  · simp [convert_to_dual_routing_error, h1, h2, h3, h4, h5, h6] at hcat
  by_cases h7 : anyKeyword serviceKeywords (lowerStr s) = true
  · simp only [convert_to_dual_routing_error, h1, h2, h3, h4, h5, h6, h7,
      Bool.false_eq_true, if_false, if_true]
    refine ⟨?_, ?_, ?_⟩ <;> trivial
  · simp only [convert_to_dual_routing_error, h1, h2, h3, h4, h5, h6, h7,
      Bool.false_eq_true, if_false, if_true]
    refine ⟨?_, ?_, ?_⟩ <;> trivial

/-- Witness for C9 at a concrete INTERNAL-classified message. -/
theorem classifier_high_severity_exposes_details_witness :
    (convert_to_dual_routing_error "internet" "boom" "ts").severity =
      ErrorSeverity.high ∧
    alookup (convert_to_dual_routing_error "internet" "boom" "ts").details
      "original_error" = some "boom" ∧
    ((generate_api_response (convert_to_dual_routing_error "internet" "boom" "ts")
      "req-3" { include_details := false }).body.getField "error").bind
        (fun j => (j.getField "details").bind
          (fun d => (d.getField "original_error").bind Json.getStr)) = some "boom" :=
  classifier_high_severity_exposes_details "internet" "boom" "ts" "req-3"
    { include_details := false } (by decide)

/-- C8: when the Bedrock call succeeds, the internet Lambda handler
returns statusCode 200 whatever the DynamoDB logging and metric
emission calls did (their failures are swallowed inside `log_request` /
`send_custom_metrics`), and `handle_error` returns normally whatever
the CloudWatch call inside `_send_error_metrics` did. -/
theorem logging_failures_do_not_affect_success :
    (∀ (event : Event) (w : LambdaWorld) (r ts : String),
      detect_routing_method event.path ≠ "vpn" →
      event.httpMethod ≠ "GET" →
      w.validateOutcome = Except.ok () →
      (∃ rq, w.parseOutcome = Except.ok rq) →
      (∃ tk, w.tokenOutcome = Except.ok tk) →
      (∃ resp, w.bedrockOutcome = Except.ok resp) →
      exceptStatus (lambda_handler event w r ts) = some 200) ∧
    (∀ (rm : String) (e : ErrInput) (r : String) (ctx : HandlerContext)
       (ts : String) (cw : Except String Unit),
      exceptIsOk (handle_error rm e r ctx ts cw) = true) := by
  constructor
  · rintro event w r ts h1 h2 h3 ⟨rq, h4⟩ ⟨tk, h5⟩ ⟨resp, h6⟩
    unfold lambda_handler
    dsimp only
    rw [if_neg h1, if_neg h2, h3, h4, h5, h6]
    rfl
  · rintro rm e r ctx ts cw
    cases cw <;> rfl

/-- Witness for C8: a successful invocation where both DynamoDB and
CloudWatch fail still returns 200, and `handle_error` run on a failing
CloudWatch still returns normally. -/
theorem logging_failures_do_not_affect_success_witness :
    exceptStatus (lambda_handler
      { path := "/v1/bedrock/invoke-model", httpMethod := "POST" }
      { validateOutcome := Except.ok ()
        parseOutcome := Except.ok { modelId := "m", body := "" }
        tokenOutcome := Except.ok "token"
        bedrockOutcome := Except.ok (Json.obj [])
        dynamoOutcome := Except.error "dynamo down"
        metricsOutcome := Except.error "cloudwatch down"
        errorMetricsOutcome := Except.error "cloudwatch down"
        getResponse := { statusCode := 200, headers := [], body := Json.null } }
      "req-2" "ts") = some 200 ∧
    exceptIsOk (handle_error "internet" (ErrInput.generic "boom") "req-2"
      { include_details := false } "ts" (Except.error "cloudwatch down")) = true := by
  constructor
  · exact logging_failures_do_not_affect_success.1 _ _ "req-2" "ts"
      (by decide) (by decide) rfl ⟨_, rfl⟩ ⟨_, rfl⟩ ⟨_, rfl⟩
  · exact logging_failures_do_not_affect_success.2 "internet"
      (ErrInput.generic "boom") "req-2" { include_details := false } "ts"
      (Except.error "cloudwatch down")

/-- Helper: `record_failure` always increments the failure count of the
service it is called on (the threshold branch only changes
`circuit_state`). -/
theorem record_failure_count (cb : CircuitBreaker) (s : String) (now : ℚ) :
    (cb.record_failure s now).failure_count s = cb.failure_count s + 1 := by
  unfold CircuitBreaker.record_failure
  dsimp only
  split <;> simp [updMap]

/-- Invariant of reachable breaker states: a service whose stored state
is "open" or "half-open" has accumulated at least `failure_threshold`
failures since its last recorded success. -/
theorem reachable_threshold_le_count {cb : CircuitBreaker}
    (h : CircuitBreaker.Reachable cb) :
    ∀ s, (cb.circuit_state s = "open" ∨ cb.circuit_state s = "half-open") →
      cb.failure_threshold ≤ cb.failure_count s := by
  induction h with
  | init ft rt =>
      intro s hs
      simp [CircuitBreaker.init] at hs
  | is_open cb s0 now hr ih =>
      intro s hs
      by_cases h1 : cb.circuit_state s0 = "open"
      · by_cases h2 : now - cb.last_failure_time s0 > cb.recovery_timeout
        · have he : cb.is_open s0 now =
              (false, { cb with circuit_state := updMap cb.circuit_state s0 "half-open" }) := by
            simp [CircuitBreaker.is_open, h1, h2]
          rw [he] at hs ⊢
          dsimp only at hs ⊢
          by_cases h3 : s = s0
          · subst h3
            exact ih s (Or.inl h1)
          · apply ih
            simpa [updMap, h3] using hs
        · have he : cb.is_open s0 now = (true, cb) := by
            simp [CircuitBreaker.is_open, h1, h2]
          rw [he] at hs ⊢
          exact ih s hs
      · have he : cb.is_open s0 now = (false, cb) := by
          simp [CircuitBreaker.is_open, h1]
        rw [he] at hs ⊢
        exact ih s hs
  | success cb s0 hr ih =>
      intro s hs
      simp only [CircuitBreaker.record_success] at hs ⊢
      by_cases h3 : s = s0
      · subst h3
        simp [updMap] at hs
      · simp only [updMap, if_neg h3] at hs ⊢
        exact ih s hs
  | failure cb s0 now hr ih =>
      intro s hs
      unfold CircuitBreaker.record_failure at hs ⊢
      dsimp only at hs ⊢
      by_cases hc : cb.failure_count s0 + 1 ≥ cb.failure_threshold
      · rw [if_pos hc] at hs ⊢
        dsimp only at hs ⊢
        by_cases h3 : s = s0
        · subst h3
          simpa [updMap] using hc
        · simp only [updMap, if_neg h3] at hs ⊢
          exact ih s hs
      · rw [if_neg hc] at hs ⊢
        dsimp only at hs ⊢
        by_cases h3 : s = s0
        · subst h3
          simp only [updMap, if_pos rfl]
          have := ih s hs
          omega
        · simp only [updMap, if_neg h3]
          exact ih s hs

/-- C2: the per-service circuit breaker follows the specified state
machine.  (a) From the initial state with the default parameters
(threshold 5, recovery timeout 60), five consecutive `record_failure`
calls for a service make the next `is_open` call return true (checked
before the recovery timeout has elapsed).  (b) While "open", once
strictly more than `recovery_timeout` seconds have elapsed since
`last_failure_time`, the next `is_open` call returns false and stores
"half-open".  (c) `record_success` resets `failure_count` to 0 and the
state to "closed" from any prior state.  (d) In any reachable state, a
`record_failure` while "half-open" returns the service to "open". -/
theorem circuit_breaker_state_machine :
    (∀ (s : String) (t1 t2 t3 t4 t5 now : ℚ), now - t5 ≤ 60 →
      (((((((CircuitBreaker.init 5 60).record_failure s t1).record_failure s t2).record_failure
        s t3).record_failure s t4).record_failure s t5).is_open s now).1 = true) ∧
    (∀ (cb : CircuitBreaker) (s : String) (now : ℚ),
      cb.circuit_state s = "open" →
      now - cb.last_failure_time s > cb.recovery_timeout →
      (cb.is_open s now).1 = false ∧
      ((cb.is_open s now).2).circuit_state s = "half-open") ∧
    (∀ (cb : CircuitBreaker) (s : String),
      (cb.record_success s).failure_count s = 0 ∧
      (cb.record_success s).circuit_state s = "closed") ∧
    (∀ (cb : CircuitBreaker) (s : String) (t : ℚ),
      CircuitBreaker.Reachable cb → cb.circuit_state s = "half-open" →
      (cb.record_failure s t).circuit_state s = "open") := by
  refine ⟨?_, ?_, ?_, ?_⟩
  · intro s t1 t2 t3 t4 t5 now h
    have hnot : ¬ (60 : ℚ) < now - t5 := by linarith
    simp [CircuitBreaker.is_open, CircuitBreaker.record_failure, CircuitBreaker.init,
      updMap, hnot]
  · rintro cb s now h1 h2
    constructor <;> simp [CircuitBreaker.is_open, h1, h2, updMap]
  · intro cb s
    exact ⟨by simp [CircuitBreaker.record_success, updMap],
      by simp [CircuitBreaker.record_success, updMap]⟩
  · rintro cb s t hr hhalf
    have hinv := reachable_threshold_le_count hr s (Or.inr hhalf)
    unfold CircuitBreaker.record_failure
    dsimp only
    rw [if_pos (by omega)]
    simp [updMap]

/-- Witness for C2: each clause of the state machine at concrete
services, times and breakers. -/
theorem circuit_breaker_state_machine_witness :
    ((((((((CircuitBreaker.init 5 60).record_failure "svc" 0).record_failure "svc" 1).record_failure
      "svc" 2).record_failure "svc" 3).record_failure "svc" 4).is_open "svc" 4).1 = true) ∧
    ((((CircuitBreaker.init 1 60).record_failure "svc" 0).is_open "svc" 100).1 = false ∧
      (((((CircuitBreaker.init 1 60).record_failure "svc" 0).is_open "svc" 100).2).circuit_state
        "svc" = "half-open")) ∧
    (((CircuitBreaker.init 5 60).record_success "svc").failure_count "svc" = 0 ∧
      ((CircuitBreaker.init 5 60).record_success "svc").circuit_state "svc" = "closed") ∧
    (((((CircuitBreaker.init 1 60).record_failure "svc" 0).is_open "svc" 100).2.record_failure
      "svc" 200).circuit_state "svc" = "open") := by
  refine ⟨?_, ?_, ?_, ?_⟩
  · exact circuit_breaker_state_machine.1 "svc" 0 1 2 3 4 4 (by norm_num)
  · exact circuit_breaker_state_machine.2.1 _ "svc" 100
      (by simp [CircuitBreaker.record_failure, CircuitBreaker.init, updMap])
      (by norm_num [CircuitBreaker.record_failure, CircuitBreaker.init, updMap])
  · exact circuit_breaker_state_machine.2.2.1 _ "svc"
  · exact circuit_breaker_state_machine.2.2.2 _ "svc" 200
      (CircuitBreaker.Reachable.is_open _ "svc" 100
        (CircuitBreaker.Reachable.failure _ "svc" 0
          (CircuitBreaker.Reachable.init 1 60)))
      (by norm_num [CircuitBreaker.is_open, CircuitBreaker.record_failure,
        CircuitBreaker.init, updMap])

/-- C7: `handle_vpc_endpoint_failure` raises `CircuitBreakerError` when
the breaker is open for the service; otherwise it records a failure
and, when `retry_attempt < max_retries`, returns a retry action whose
delay is `min(0.1 * 2 ** retry_attempt, 30)` (hence at most 30 seconds)
and whose attempt counter is `retry_attempt + 1`; when
`retry_attempt >= max_retries` it raises `VPCEndpointError`. -/
theorem vpc_endpoint_failure_behavior (cb : CircuitBreaker) (s : String)
    (attempt maxr : Nat) (now : ℚ) :
    ((cb.is_open s now).1 = true →
      (handle_vpc_endpoint_failure cb s attempt maxr now).1 =
        VpcFailureOutcome.circuitBreakerError) ∧
    ((cb.is_open s now).1 = false → attempt < maxr →
      (handle_vpc_endpoint_failure cb s attempt maxr now).1 =
        VpcFailureOutcome.retryAction (min ((1 / 10 : ℚ) * 2 ^ attempt) 30)
          (attempt + 1) ∧
      calculate_retry_delay attempt ≤ 30 ∧
      (handle_vpc_endpoint_failure cb s attempt maxr now).2.failure_count s =
        ((cb.is_open s now).2).failure_count s + 1) ∧
    ((cb.is_open s now).1 = false → maxr ≤ attempt →
      (handle_vpc_endpoint_failure cb s attempt maxr now).1 =
        VpcFailureOutcome.vpcEndpointError) := by
  refine ⟨?_, ?_, ?_⟩
  · intro h
    simp [handle_vpc_endpoint_failure, h]
  · intro h hlt
    refine ⟨?_, ?_, ?_⟩
    · simp [handle_vpc_endpoint_failure, h, hlt, calculate_retry_delay]
    · exact min_le_right _ _
    · simp only [handle_vpc_endpoint_failure, h, Bool.false_eq_true, if_false,
        if_pos hlt]
      exact record_failure_count _ _ _
  · intro h hge
    simp [handle_vpc_endpoint_failure, h, Nat.not_lt.mpr hge]

/-- Witness for C7: the three branches at concrete breakers and
attempt counters. -/
theorem vpc_endpoint_failure_behavior_witness :
    ((handle_vpc_endpoint_failure ((CircuitBreaker.init 1 60).record_failure "svc" 0)
      "svc" 0 3 30).1 = VpcFailureOutcome.circuitBreakerError) ∧
    ((handle_vpc_endpoint_failure (CircuitBreaker.init 5 60) "svc" 0 3 0).1 =
      VpcFailureOutcome.retryAction (min ((1 / 10 : ℚ) * 2 ^ 0) 30) (0 + 1) ∧
      calculate_retry_delay 0 ≤ 30 ∧
      (handle_vpc_endpoint_failure (CircuitBreaker.init 5 60) "svc" 0 3 0).2.failure_count
        "svc" = (((CircuitBreaker.init 5 60).is_open "svc" 0).2).failure_count "svc" + 1) ∧
    ((handle_vpc_endpoint_failure (CircuitBreaker.init 5 60) "svc" 3 3 0).1 =
      VpcFailureOutcome.vpcEndpointError) := by
  refine ⟨?_, ?_, ?_⟩
  · exact (vpc_endpoint_failure_behavior _ "svc" 0 3 30).1
      (by norm_num [CircuitBreaker.is_open, CircuitBreaker.record_failure,
        CircuitBreaker.init, updMap])
  · exact (vpc_endpoint_failure_behavior _ "svc" 0 3 0).2.1 (by decide) (by decide)
  · exact (vpc_endpoint_failure_behavior _ "svc" 3 3 0).2.2 (by decide) (by decide)

/-- C10: circuit-breaker state is per-service: operations on a service
`t` leave the failure count, last failure time and stored state of any
other service `s` unchanged, and a service never recorded as failing is
treated as closed (`is_open` on a fresh breaker returns false, reading
the `.get` defaults, without raising). -/
theorem circuit_breaker_per_service_isolation (cb : CircuitBreaker)
    (s t : String) (now : ℚ) (hst : s ≠ t) :
    ((cb.is_open t now).2.failure_count s = cb.failure_count s ∧
     (cb.is_open t now).2.last_failure_time s = cb.last_failure_time s ∧
     (cb.is_open t now).2.circuit_state s = cb.circuit_state s) ∧
    ((cb.record_success t).failure_count s = cb.failure_count s ∧
     (cb.record_success t).last_failure_time s = cb.last_failure_time s ∧
     (cb.record_success t).circuit_state s = cb.circuit_state s) ∧
    ((cb.record_failure t now).failure_count s = cb.failure_count s ∧
     (cb.record_failure t now).last_failure_time s = cb.last_failure_time s ∧
     (cb.record_failure t now).circuit_state s = cb.circuit_state s) ∧
    (∀ (ft : Nat) (rt : ℚ), ((CircuitBreaker.init ft rt).is_open s now).1 = false) := by
  refine ⟨⟨?_, ?_, ?_⟩, ⟨?_, ?_, ?_⟩, ⟨?_, ?_, ?_⟩, fun ft rt => rfl⟩
  all_goals
    simp only [CircuitBreaker.is_open, CircuitBreaker.record_success,
      CircuitBreaker.record_failure]
  all_goals repeat' split
  all_goals simp [updMap, hst]

/-- Witness for C10 at concrete distinct services. -/
theorem circuit_breaker_per_service_isolation_witness :
    (((CircuitBreaker.init 5 60).is_open "b" 0).2.failure_count "a" =
      (CircuitBreaker.init 5 60).failure_count "a" ∧
     ((CircuitBreaker.init 5 60).is_open "b" 0).2.last_failure_time "a" =
      (CircuitBreaker.init 5 60).last_failure_time "a" ∧
     ((CircuitBreaker.init 5 60).is_open "b" 0).2.circuit_state "a" =
      (CircuitBreaker.init 5 60).circuit_state "a") ∧
    (((CircuitBreaker.init 5 60).record_success "b").failure_count "a" =
      (CircuitBreaker.init 5 60).failure_count "a" ∧
     ((CircuitBreaker.init 5 60).record_success "b").last_failure_time "a" =
      (CircuitBreaker.init 5 60).last_failure_time "a" ∧
     ((CircuitBreaker.init 5 60).record_success "b").circuit_state "a" =
      (CircuitBreaker.init 5 60).circuit_state "a") ∧
    (((CircuitBreaker.init 5 60).record_failure "b" 0).failure_count "a" =
      (CircuitBreaker.init 5 60).failure_count "a" ∧
     ((CircuitBreaker.init 5 60).record_failure "b" 0).last_failure_time "a" =
      (CircuitBreaker.init 5 60).last_failure_time "a" ∧
     ((CircuitBreaker.init 5 60).record_failure "b" 0).circuit_state "a" =
      (CircuitBreaker.init 5 60).circuit_state "a") ∧
    (∀ (ft : Nat) (rt : ℚ), ((CircuitBreaker.init ft rt).is_open "a" 0).1 = false) :=
  circuit_breaker_per_service_isolation (CircuitBreaker.init 5 60) "a" "b" 0
    (by decide)

end CrossPartition
